import Mathlib

/-!
Shallow embedding of the rodbus Modbus stack fragments relevant to the
verified claims:

* `src/rodbus/src/client/requests/send_mutable_fc.rs` — serialization and
  parsing of `MutableFunctionCode` requests and the promise-resolution
  behaviour of `SendMutableFC::handle_response` / `parse_all`.
* `src/rodbus/src/tcp/client.rs` — the `TcpChannelTask` run loop and
  `try_connect_and_run` reconnect/backoff logic.
* `src/rodbus/examples/mutable_server.rs` — the `SimpleHandler` request
  handler over coil/register stores.
* `AddressRange::try_from` (modelled from the spec; its body is not among
  the provided sources).

Machine integers are modelled as `Nat`: bytes are `Nat` values `< 256`,
u16 values are `Nat` values `< 65536`.  Cursors from the `scursor` crate
are modelled explicitly: a read cursor is the list of remaining bytes, a
write cursor is the list of bytes written so far.  Fallible code returns
`Except`.  Promise resolution is modelled as the list of resolution
events a code path emits.
-/

/-- Errors surfaced by request serialization/parsing (`RequestError` in the
source, restricted to the variants these code paths can produce).
`insufficientBytes` models a `scursor` read past the end of the buffer;
`trailingBytes` models the error from `ReadCursor::expect_empty`. -/
inductive RequestError where
  | insufficientBytes
  | trailingBytes
deriving DecidableEq, Repr

/-- The client-side `MutableFunctionCode` type (`crate::types`): a raw
function-code byte plus a list of u16 data elements, with accessors
`function_code()` and `data()`.  Its definition is not under the provided
sources; modelled from the spec's description of generic/mutable function
codes as "function code byte plus payload data" and from its use in
`send_mutable_fc.rs`. -/
structure MutableFunctionCode where
  fc : Nat
  data : List Nat
deriving DecidableEq, Repr

/-- Big-endian byte pair written by `WriteCursor::write_u16_be`. -/
def writeU16be (x : Nat) : List Nat :=
  [x / 256 % 256, x % 256]

/-- `SendMutableFCOperation::serialize` for `MutableFunctionCode`
(send_mutable_fc.rs:71-78): write the function code byte, then each data
element as a big-endian u16.  The write cursor is modelled as the list of
bytes produced (a `WriteCursor` error would only reflect the capacity of
the outer transmit buffer, not the PDU content). -/
def MutableFunctionCode.serialize (m : MutableFunctionCode) : List Nat :=
  m.fc % 256 :: m.data.flatMap writeU16be

/-- `SendMutableFCOperation::parse` for `MutableFunctionCode`
(send_mutable_fc.rs:80-85): read one function-code byte with
`ReadCursor::read_u8`, then take all remaining bytes via
`ReadCursor::read_all` and widen each byte to a u16 (`v as u16` is
value-preserving on bytes).  Returns the parsed value together with the
bytes left in the cursor (always `[]` on success, since `read_all`
consumes the rest). -/
def MutableFunctionCode.parse (bs : List Nat) :
    Except RequestError (MutableFunctionCode × List Nat) :=
  match bs with
  | [] => .error .insufficientBytes
  | fc :: rest => .ok (⟨fc, rest⟩, [])

/-- `SendMutableFC::parse_all` (send_mutable_fc.rs:59-66): parse the
response, then `cursor.expect_empty()?`.  The reply-echo-mismatch check is
commented out in the source and therefore absent here. -/
def parseAll (bs : List Nat) : Except RequestError MutableFunctionCode :=
  match MutableFunctionCode.parse bs with
  | .error e => .error e
  | .ok (v, rem) => if rem = [] then .ok v else .error .trailingBytes

/-- A single resolution of a `Promise<T>`: either `promise.success(v)` or
`promise.failure(e)`. -/
inductive PromiseEvent (T : Type) where
  | success (v : T)
  | failure (e : RequestError)
deriving DecidableEq, Repr

/-- `SendMutableFC::handle_response` (send_mutable_fc.rs:41-57): run
`parse_all` on the cursor, propagating its error with `?` (in which case
the promise is not touched); on success, log (no state effect) and resolve
the promise with `success(response)`.  The first component is the
function's return value, the second the list of promise resolutions the
call performs.  The `request` argument models `&self.request`; like the
source (with the echo check commented out) the function does not consult
it. -/
def handleResponse (request : MutableFunctionCode) (bs : List Nat) :
    Except RequestError Unit × List (PromiseEvent MutableFunctionCode) :=
  match parseAll bs with
  | .error e => (.error e, [])
  | .ok response => (.ok (), [.success response])

/-- `SendMutableFC::failure` (send_mutable_fc.rs:37-39): resolve the
promise with `failure(err)`. -/
def promiseFailure (err : RequestError) :
    List (PromiseEvent MutableFunctionCode) :=
  [.failure err]

/-! ## Server request handler (`examples/mutable_server.rs`) -/

/-- Modbus exception codes returned by handler operations (only the
variants this handler produces are modelled). -/
inductive ExceptionCode where
  | illegalDataAddress
  | illegalFunction
deriving DecidableEq, Repr

/-- An index/value pair (`Indexed<T>` in `crate::types`): a u16 index plus
a value, as used by the single- and multiple-write handler operations. -/
structure Indexed (T : Type) where
  index : Nat
  value : T
deriving DecidableEq, Repr

/-- The example server's `SimpleHandler` (mutable_server.rs:10-15): four
mutex-protected stores.  Each handler operation locks exactly the store it
touches and runs single-threaded under that lock, so the stores are
embedded as plain lists and the operations as pure state-passing
functions. -/
structure SimpleHandler where
  coils : List Bool
  discreteInputs : List Bool
  holdingRegisters : List Nat
  inputRegisters : List Nat
deriving DecidableEq, Repr

/-- `SimpleHandler::read_coil` (mutable_server.rs:35-44):
`coils.get(address).cloned().ok_or(IllegalDataAddress)`.  Takes `&self`
and only reads under the lock, so it is embedded as a pure function that
leaves the handler untouched. -/
def SimpleHandler.readCoil (h : SimpleHandler) (address : Nat) :
    Except ExceptionCode Bool :=
  match h.coils.get? address with
  | some v => .ok v
  | none => .error .illegalDataAddress

/-- `SimpleHandler::read_holding_register` (mutable_server.rs:57-66):
`holding_registers.get(address).cloned().ok_or(IllegalDataAddress)`;
read-only, like `read_coil`. -/
def SimpleHandler.readHoldingRegister (h : SimpleHandler) (address : Nat) :
    Except ExceptionCode Nat :=
  match h.holdingRegisters.get? address with
  | some v => .ok v
  | none => .error .illegalDataAddress

/-- `SimpleHandler::write_single_coil` (mutable_server.rs:79-102): if
`coils.get_mut(index)` succeeds assign the value and return `Ok(())`,
otherwise return `IllegalDataAddress`; the pair carries the function
result and the handler after the call. -/
def SimpleHandler.writeSingleCoil (h : SimpleHandler) (v : Indexed Bool) :
    Except ExceptionCode Unit × SimpleHandler :=
  if v.index < h.coils.length then
    (.ok (), { h with coils := h.coils.set v.index v.value })
  else
    (.error .illegalDataAddress, h)

/-- `SimpleHandler::write_multiple_coils` (mutable_server.rs:129-155):
iterate over the values; for each, assign through `coils.get_mut` or
return `IllegalDataAddress` immediately, leaving earlier assignments in
place. -/
def SimpleHandler.writeMultipleCoils (h : SimpleHandler) :
    List (Indexed Bool) → Except ExceptionCode Unit × SimpleHandler
  | [] => (.ok (), h)
  | v :: rest =>
    if v.index < h.coils.length then
      SimpleHandler.writeMultipleCoils
        { h with coils := h.coils.set v.index v.value } rest
    else
      (.error .illegalDataAddress, h)

/-- `SimpleHandler::write_multiple_registers` (mutable_server.rs:157-183):
same loop over the holding-register store. -/
def SimpleHandler.writeMultipleRegisters (h : SimpleHandler) :
    List (Indexed Nat) → Except ExceptionCode Unit × SimpleHandler
  | [] => (.ok (), h)
  | v :: rest =>
    if v.index < h.holdingRegisters.length then
      SimpleHandler.writeMultipleRegisters
        { h with holdingRegisters := h.holdingRegisters.set v.index v.value } rest
    else
      (.error .illegalDataAddress, h)

/-- All coil writes of a list applied unconditionally in order
(`List.set` is a no-op at out-of-range indices); used to state how far a
failing `write_multiple_coils` got. -/
def SimpleHandler.applyCoilWrites (h : SimpleHandler) (values : List (Indexed Bool)) :
    SimpleHandler :=
  values.foldl (fun h v => { h with coils := h.coils.set v.index v.value }) h

/-- All register writes of a list applied unconditionally in order. -/
def SimpleHandler.applyRegisterWrites (h : SimpleHandler) (values : List (Indexed Nat)) :
    SimpleHandler :=
  values.foldl
    (fun h v => { h with holdingRegisters := h.holdingRegisters.set v.index v.value }) h

/-! ## TCP channel task (`src/tcp/client.rs`) -/

/-- `SessionError` outcomes of `ClientLoop::run`, as matched in
tcp/client.rs:137-144. -/
inductive SessionError where
  | shutdown
  | disabled
  | ioError
  | badFrame
deriving DecidableEq, Repr

/-- `StateChange`, the error type of `try_connect_and_run`;
`StateChange::Shutdown` is matched in tcp/client.rs:100 and produced at
line 139.  Modelled from the spec for the part outside the sources: a
Disable arriving while disconnected "immediately cancels the wait and
returns to Disabled", so the type also carries a disable state change. -/
inductive StateChange where
  | disable
  | shutdown
deriving DecidableEq, Repr

/-- Modelled from the spec: the result of
`ClientLoop::fail_requests_for(delay)` (client/task.rs, not among the
provided sources).  During the fail-requests-for window every dequeued
request is failed immediately while Enable/Disable/SetDecodeLevel are
honored: the delay can elapse normally, a Disable can cancel the wait, and
closure of the command queue — which the loop "observes and shuts down
cleanly on its next receive" — surfaces as a shutdown state change. -/
inductive FailOutcome where
  | elapsed
  | stateChange (c : StateChange)
deriving DecidableEq, Repr

/-- Return value of `fail_requests_for` for a given outcome of its
fail-requests-for window. -/
def failRequestsResult : FailOutcome → Except StateChange Unit
  | .elapsed => .ok ()
  | .stateChange c => .error c

/-- Outcome of one connection attempt inside `try_connect_and_run`: the
TCP connect fails, the post-connect handshake
(`TcpTaskConnectionHandler::handle`) fails, or both succeed and the
session loop eventually ends with some `SessionError`. -/
inductive ConnectOutcome where
  | connectErr
  | handshakeErr
  | connected (s : SessionError)
deriving DecidableEq, Repr

/-- Observable calls `try_connect_and_run` makes on its collaborators, in
order: `connect_retry.next_delay()`, `client_loop.fail_requests_for(d)`,
`connect_retry.reset()`, and `client_loop.run(..)`. -/
inductive TaskEvent where
  | nextDelay (d : Nat)
  | failRequestsFor (d : Nat)
  | reset
  | runSession
deriving DecidableEq, Repr

/-- `TcpChannelTask::try_connect_and_run` (tcp/client.rs:106-149) as a
function of the attempt's outcome: on connect failure or handshake failure
it calls `next_delay` and passes that delay to `fail_requests_for`,
returning that call's result; on success it calls `reset()` and then runs
the session loop, mapping `SessionError::Shutdown` to
`Err(StateChange::Shutdown)` and every other session error to `Ok(())`.
`delay` is the value `next_delay()` returns on this attempt and `fo` the
outcome of the fail-requests-for window; the first component is the
ordered trace of collaborator calls. -/
def tryConnectAndRun (c : ConnectOutcome) (delay : Nat) (fo : FailOutcome) :
    List TaskEvent × Except StateChange Unit :=
  match c with
  | .connectErr =>
    ([.nextDelay delay, .failRequestsFor delay], failRequestsResult fo)
  | .handshakeErr =>
    ([.nextDelay delay, .failRequestsFor delay], failRequestsResult fo)
  | .connected s =>
    ([.reset, .runSession],
      match s with
      | .shutdown => .error .shutdown
      | .disabled => .ok ()
      | .ioError => .ok ()
      | .badFrame => .ok ())

/-- Result of `ClientLoop::wait_for_enabled` (tcp/client.rs:96): either the
channel becomes enabled or the command queue closed (`Err(Shutdown)`). -/
inductive WaitOutcome where
  | enabled
  | shutdown
deriving DecidableEq, Repr

/-- What one iteration of the `TcpChannelTask::run` loop does next. -/
inductive LoopStep where
  | terminated
  | again
deriving DecidableEq, Repr

/-- One iteration of the `TcpChannelTask::run` loop (tcp/client.rs:93-104):
return `Shutdown` when `wait_for_enabled` signals shutdown or when
`try_connect_and_run` returns `Err(StateChange::Shutdown)`; in every other
case loop again. -/
def runOnce (w : WaitOutcome) (c : ConnectOutcome) (delay : Nat)
    (fo : FailOutcome) : LoopStep :=
  match w with
  | .shutdown => .terminated
  | .enabled =>
    match (tryConnectAndRun c delay fo).2 with
    | .error .shutdown => .terminated
    | .error .disable => .again
    | .ok () => .again

/-! ## AddressRange (modelled from the spec) -/

/-- A validated Modbus address range. -/
structure AddressRange where
  start : Nat
  count : Nat
deriving DecidableEq, Repr

/-- Modelled from the spec: `AddressRange::try_from(start, count)` is not
among the provided sources (only its callers in
examples/mutable_client.rs).  The spec states the invariant "`start +
count - 1` fits in 16 bits and count > 0 (construction fails otherwise)";
the u16 guard is written in the overflow-safe style `start ≤ 65535 -
(count - 1)` that u16 arithmetic forces on the implementation. -/
def AddressRange.tryFrom (start count : Nat) : Option AddressRange :=
  if count = 0 then none
  else if 65535 - (count - 1) < start then none
  else some ⟨start, count⟩

/-! ## Theorems -/

/-- Claim C1 (code bug): the round-trip `parse(serialize(op)) == op` fails
for `MutableFunctionCode`.  `serialize` writes each u16 data element as
two big-endian bytes, but `parse` widens each remaining byte to its own
u16 element, so serializing `{fc = 0x41, data = [1]}` yields bytes
`[0x41, 0x00, 0x01]` which parse back as `{fc = 0x41, data = [0, 1]}`, a
different value; the round-trip only holds for empty payloads. -/
theorem roundTrip_fails_on_nonempty_data :
    MutableFunctionCode.serialize ⟨65, [1]⟩ = [65, 0, 1] ∧
    parseAll (MutableFunctionCode.serialize ⟨65, [1]⟩) =
      .ok ⟨65, [0, 1]⟩ ∧
    (⟨65, [0, 1]⟩ : MutableFunctionCode) ≠ ⟨65, [1]⟩ :=
  ⟨rfl, rfl, by decide⟩

/-- Claim C2: `handle_response` emits a single `success` resolution of the
promise exactly when the cursor parses successfully and is fully consumed
(`parse` succeeds with nothing left over); when parsing fails it returns
the error having emitted no resolution (the promise is then failed only by
a separate `failure` call); and no path of `handle_response` resolves the
promise more than once. -/
theorem handleResponse_resolves_exactly_once_iff_parse_ok
    (req : MutableFunctionCode) (bs : List Nat) :
    ((∃ v, (handleResponse req bs).2 = [PromiseEvent.success v]) ↔
      (∃ v, MutableFunctionCode.parse bs = .ok (v, []))) ∧
    (∀ e, parseAll bs = .error e →
      handleResponse req bs = (.error e, []) ∧
      promiseFailure e = [PromiseEvent.failure e]) ∧
    (handleResponse req bs).2.length ≤ 1 := by
  cases bs <;>
    simp [handleResponse, parseAll, MutableFunctionCode.parse, promiseFailure]

/-- Witness for C2 at a concrete input: the empty cursor fails to parse,
so `handle_response` returns the error and leaves the promise untouched. -/
theorem handleResponse_resolves_exactly_once_iff_parse_ok_witness :
    handleResponse ⟨65, [1]⟩ [] = (.error .insufficientBytes, []) ∧
    promiseFailure .insufficientBytes = [PromiseEvent.failure .insufficientBytes] :=
  (handleResponse_resolves_exactly_once_iff_parse_ok ⟨65, [1]⟩ []).2.1
    .insufficientBytes rfl

/-- Claim C6: whenever the response bytes parse successfully,
`handle_response` resolves the promise with `success` even when the parsed
response differs from the original request — no reply-echo-mismatch
validation is performed (the check is commented out in the source). -/
theorem handleResponse_no_echo_validation
    (req : MutableFunctionCode) (bs : List Nat) (v : MutableFunctionCode)
    (hparse : parseAll bs = .ok v) (hne : v ≠ req) :
    handleResponse req bs = (.ok (), [PromiseEvent.success v]) := by
  simp [handleResponse, hparse]

/-- Witness for C6: request `{fc = 1, data = [2]}`, response bytes
`[3, 9]` parse to `{fc = 3, data = [9]}` — a different value — and the
promise is still resolved with success. -/
theorem handleResponse_no_echo_validation_witness :
    handleResponse ⟨1, [2]⟩ [3, 9] = (.ok (), [PromiseEvent.success ⟨3, [9]⟩]) :=
  handleResponse_no_echo_validation ⟨1, [2]⟩ [3, 9] ⟨3, [9]⟩ rfl (by decide)

/-- Claim C7: `MutableFunctionCode::parse` consumes the entire remaining
buffer, so the `expect_empty` in `parse_all` always succeeds — a
trailing-bytes error is impossible — and parsing fails exactly when there
is no byte left for the function code; `parse_all` succeeds exactly when
`parse` does. -/
theorem parse_consumes_all
    (bs : List Nat) :
    (∀ v rem, MutableFunctionCode.parse bs = .ok (v, rem) → rem = []) ∧
    parseAll bs ≠ .error .trailingBytes ∧
    ((MutableFunctionCode.parse bs).isOk = true ↔ bs ≠ []) ∧
    ((parseAll bs).isOk = (MutableFunctionCode.parse bs).isOk) := by
  cases bs <;>
    simp [parseAll, MutableFunctionCode.parse, Except.isOk, Except.toBool]

/-- Witness for C7: a two-byte buffer parses with nothing left over, and
the empty buffer's `parse_all` error is `insufficientBytes`, not the
trailing-bytes error. -/
theorem parse_consumes_all_witness :
    (MutableFunctionCode.parse [7, 8]).isOk = true ∧
    parseAll [] ≠ .error .trailingBytes :=
  ⟨(parse_consumes_all [7, 8]).2.2.1.mpr (by decide),
   (parse_consumes_all []).2.1⟩

/-- Claim C8: `read_holding_register(address)` returns the stored value for
every in-bounds address and `IllegalDataAddress` for every out-of-bounds
address; the function is total (the Rust code indexes with `get`, never
panicking) and, being a pure read under the lock, leaves the store
untouched. -/
theorem readHoldingRegister_bounds (h : SimpleHandler) (a : Nat) :
    (∀ hlt : a < h.holdingRegisters.length,
      h.readHoldingRegister a = .ok (h.holdingRegisters.get ⟨a, hlt⟩)) ∧
    (h.holdingRegisters.length ≤ a →
      h.readHoldingRegister a = .error .illegalDataAddress) := by
  constructor
  · intro hlt
    simp [SimpleHandler.readHoldingRegister, List.getElem?_eq_getElem hlt,
      List.get_eq_getElem]
  · intro hge
    simp [SimpleHandler.readHoldingRegister, List.getElem?_eq_none hge]

/-- Witness for C8 on a three-register store: address 1 reads back the
stored value 8, address 5 is rejected with `IllegalDataAddress`. -/
theorem readHoldingRegister_bounds_witness :
    SimpleHandler.readHoldingRegister ⟨[], [], [7, 8, 9], []⟩ 1 = .ok 8 ∧
    SimpleHandler.readHoldingRegister ⟨[], [], [7, 8, 9], []⟩ 5 =
      .error .illegalDataAddress :=
  ⟨(readHoldingRegister_bounds ⟨[], [], [7, 8, 9], []⟩ 1).1 (by decide),
   (readHoldingRegister_bounds ⟨[], [], [7, 8, 9], []⟩ 5).2 (by decide)⟩

/-- Claim C9: for every in-bounds coil index, `write_single_coil` returns
`Ok(())`, a subsequent `read_coil` at that index returns the written
value, and every other index reads as before. -/
theorem writeSingleCoil_then_readCoil (h : SimpleHandler) (i : Nat)
    (v : Bool) (hlt : i < h.coils.length) :
    (h.writeSingleCoil ⟨i, v⟩).1 = .ok () ∧
    (h.writeSingleCoil ⟨i, v⟩).2.readCoil i = .ok v ∧
    ∀ j, j ≠ i → (h.writeSingleCoil ⟨i, v⟩).2.readCoil j = h.readCoil j := by
  refine ⟨?_, ?_, ?_⟩
  · simp [SimpleHandler.writeSingleCoil, hlt]
  · simp [SimpleHandler.writeSingleCoil, hlt, SimpleHandler.readCoil,
      List.getElem?_set_self hlt]
  · intro j hj
    simp [SimpleHandler.writeSingleCoil, hlt, SimpleHandler.readCoil,
      List.getElem?_set_ne (Ne.symm hj)]

/-- Witness for C9, the spec's scenario: on a 10-element coil array,
writing coil 0 to `true` succeeds and reading coil 0 afterwards yields
`true` (while coil 1, for example, still reads `false`). -/
theorem writeSingleCoil_then_readCoil_witness :
    (SimpleHandler.writeSingleCoil ⟨List.replicate 10 false, [], [], []⟩
        ⟨0, true⟩).1 = .ok () ∧
    (SimpleHandler.writeSingleCoil ⟨List.replicate 10 false, [], [], []⟩
        ⟨0, true⟩).2.readCoil 0 = .ok true ∧
    (SimpleHandler.writeSingleCoil ⟨List.replicate 10 false, [], [], []⟩
        ⟨0, true⟩).2.readCoil 1 =
      SimpleHandler.readCoil ⟨List.replicate 10 false, [], [], []⟩ 1 :=
  ⟨(writeSingleCoil_then_readCoil _ 0 true (by decide)).1,
   (writeSingleCoil_then_readCoil _ 0 true (by decide)).2.1,
   (writeSingleCoil_then_readCoil _ 0 true (by decide)).2.2 1 (by decide)⟩

/-- Full characterization of `write_multiple_coils`: when every index is
in bounds all writes are applied and the call succeeds; otherwise the call
returns `IllegalDataAddress` with exactly the writes before the first
out-of-bounds index applied. -/
theorem writeMultipleCoils_eq (values : List (Indexed Bool))
    (h : SimpleHandler) :
    h.writeMultipleCoils values =
      if values.all (fun v => decide (v.index < h.coils.length)) then
        (.ok (), h.applyCoilWrites values)
      else
        (.error .illegalDataAddress,
          h.applyCoilWrites
            (values.takeWhile fun v => decide (v.index < h.coils.length))) := by
  induction values generalizing h with
  | nil =>
    simp [SimpleHandler.writeMultipleCoils, SimpleHandler.applyCoilWrites]
  | cons v rest ih =>
    by_cases hp : v.index < h.coils.length
    · simp only [SimpleHandler.writeMultipleCoils, hp, if_true,
        SimpleHandler.applyCoilWrites, List.all_cons, List.takeWhile_cons,
        List.foldl_cons, ih, List.length_set]
      simp [hp]
    · simp only [SimpleHandler.writeMultipleCoils, hp, if_false,
        SimpleHandler.applyCoilWrites, List.all_cons, List.takeWhile_cons]
      simp [hp]

/-- Full characterization of `write_multiple_registers`, mirroring
`writeMultipleCoils_eq` on the holding-register store. -/
theorem writeMultipleRegisters_eq (values : List (Indexed Nat))
    (h : SimpleHandler) :
    h.writeMultipleRegisters values =
      if values.all (fun v => decide (v.index < h.holdingRegisters.length)) then
        (.ok (), h.applyRegisterWrites values)
      else
        (.error .illegalDataAddress,
          h.applyRegisterWrites
            (values.takeWhile fun v =>
              decide (v.index < h.holdingRegisters.length))) := by
  induction values generalizing h with
  | nil =>
    simp [SimpleHandler.writeMultipleRegisters, SimpleHandler.applyRegisterWrites]
  | cons v rest ih =>
    by_cases hp : v.index < h.holdingRegisters.length
    · simp only [SimpleHandler.writeMultipleRegisters, hp, if_true,
        SimpleHandler.applyRegisterWrites, List.all_cons, List.takeWhile_cons,
        List.foldl_cons, ih, List.length_set]
      simp [hp]
    · simp only [SimpleHandler.writeMultipleRegisters, hp, if_false,
        SimpleHandler.applyRegisterWrites, List.all_cons, List.takeWhile_cons]
      simp [hp]

/-- Claim C10: the multiple-write handler operations are not atomic on
error.  If the value sequence contains an out-of-bounds index, the
operation returns `IllegalDataAddress` having applied exactly the writes
that precede the first out-of-bounds element (the `takeWhile` prefix):
those stay written, and the store positions targeted at and after the
failing element are untouched. -/
theorem multiWrite_not_atomic (h : SimpleHandler)
    (cs : List (Indexed Bool)) (rs : List (Indexed Nat)) :
    ((∃ v ∈ cs, ¬ v.index < h.coils.length) →
      h.writeMultipleCoils cs =
        (.error .illegalDataAddress,
          h.applyCoilWrites
            (cs.takeWhile fun v => decide (v.index < h.coils.length)))) ∧
    ((∃ v ∈ rs, ¬ v.index < h.holdingRegisters.length) →
      h.writeMultipleRegisters rs =
        (.error .illegalDataAddress,
          h.applyRegisterWrites
            (rs.takeWhile fun v =>
              decide (v.index < h.holdingRegisters.length)))) := by
  constructor
  · intro hex
    rw [writeMultipleCoils_eq]
    have : ¬ cs.all (fun v => decide (v.index < h.coils.length)) = true := by
      simp only [List.all_eq_true, decide_eq_true_eq]
      push_neg
      obtain ⟨v, hv, hge⟩ := hex
      exact ⟨v, hv, Nat.le_of_not_lt hge⟩
    simp [this]
  · intro hex
    rw [writeMultipleRegisters_eq]
    have : ¬ rs.all (fun v => decide (v.index < h.holdingRegisters.length)) = true := by
      simp only [List.all_eq_true, decide_eq_true_eq]
      push_neg
      obtain ⟨v, hv, hge⟩ := hex
      exact ⟨v, hv, Nat.le_of_not_lt hge⟩
    simp [this]

/-- Witness for C10 on a two-coil, two-register handler: the middle
element of `[{0, true}, {5, true}, {1, true}]` is out of bounds, the call
fails, and exactly the first write is applied (same for registers). -/
theorem multiWrite_not_atomic_witness :
    SimpleHandler.writeMultipleCoils ⟨[false, false], [], [11, 12], []⟩
        [⟨0, true⟩, ⟨5, true⟩, ⟨1, true⟩] =
      (.error .illegalDataAddress, ⟨[true, false], [], [11, 12], []⟩) ∧
    SimpleHandler.writeMultipleRegisters ⟨[false, false], [], [11, 12], []⟩
        [⟨0, 99⟩, ⟨5, 99⟩, ⟨1, 99⟩] =
      (.error .illegalDataAddress, ⟨[false, false], [], [99, 12], []⟩) :=
  ⟨(multiWrite_not_atomic ⟨[false, false], [], [11, 12], []⟩
      [⟨0, true⟩, ⟨5, true⟩, ⟨1, true⟩] []).1
      ⟨⟨5, true⟩, by decide, by decide⟩,
   (multiWrite_not_atomic ⟨[false, false], [], [11, 12], []⟩ []
      [⟨0, 99⟩, ⟨5, 99⟩, ⟨1, 99⟩]).2
      ⟨⟨5, 99⟩, by decide, by decide⟩⟩

/-- Counterexample to claim C3 as stated: a connect failure does not always
leave the task running.  If the command queue closes while
`fail_requests_for` is waiting out the reconnect delay, the failure branch
of `try_connect_and_run` propagates `Err(StateChange::Shutdown)` and the
`run` loop terminates — so "task never ends for a connect failure" is
false at this input. -/
theorem run_terminates_on_connect_fail_with_closed_queue :
    runOnce .enabled .connectErr 1 (.stateChange .shutdown) = .terminated ∧
    LoopStep.terminated ≠ LoopStep.again := by
  decide

/-- Claim C3 as amended: the `TcpChannelTask::run` loop terminates exactly
when the command queue closes — observed by `wait_for_enabled`, by the
session ending with `SessionError::Shutdown`, or by the
fail-requests-for window after a connect or handshake failure; every
other outcome (`Disabled`, `IoError`, `BadFrame`, or a connect/handshake
failure whose delay window passes without queue closure) keeps the loop
running. -/
theorem run_terminates_iff_queue_closed (w : WaitOutcome)
    (c : ConnectOutcome) (d : Nat) (fo : FailOutcome) :
    runOnce w c d fo = .terminated ↔
      (w = .shutdown ∨ c = .connected .shutdown ∨
        ((c = .connectErr ∨ c = .handshakeErr) ∧
          fo = .stateChange .shutdown)) := by
  cases w <;> cases c <;>
    first
      | (rename_i s; cases s <;>
          simp [runOnce, tryConnectAndRun, failRequestsResult])
      | (cases fo with
          | elapsed => simp [runOnce, tryConnectAndRun, failRequestsResult]
          | stateChange sc =>
            cases sc <;> simp [runOnce, tryConnectAndRun, failRequestsResult])

/-- Claim C4: in every pass of `try_connect_and_run`, a connect or
handshake failure makes exactly the calls `next_delay()` then
`fail_requests_for(delay)` with the delay `next_delay` returned, and
`reset()` is not among them; `reset()` is called precisely when both the
connect and the handshake succeed, and then before the session loop
runs. -/
theorem tryConnectAndRun_reset_discipline (c : ConnectOutcome) (d : Nat)
    (fo : FailOutcome) :
    ((c = .connectErr ∨ c = .handshakeErr) →
      (tryConnectAndRun c d fo).1 = [.nextDelay d, .failRequestsFor d]) ∧
    (∀ s, c = .connected s →
      (tryConnectAndRun c d fo).1 = [.reset, .runSession]) ∧
    (TaskEvent.reset ∈ (tryConnectAndRun c d fo).1 ↔
      ∃ s, c = .connected s) := by
  cases c <;> simp [tryConnectAndRun]

/-- Witness for C4: a failed connect with delay 3 produces exactly the
`next_delay`/`fail_requests_for 3` call pair, and a connection whose
session ends in an I/O error produces the `reset`-then-session pair. -/
theorem tryConnectAndRun_reset_discipline_witness :
    (tryConnectAndRun .connectErr 3 .elapsed).1 =
      [.nextDelay 3, .failRequestsFor 3] ∧
    (tryConnectAndRun (.connected .ioError) 3 .elapsed).1 =
      [.reset, .runSession] :=
  ⟨(tryConnectAndRun_reset_discipline .connectErr 3 .elapsed).1 (Or.inl rfl),
   (tryConnectAndRun_reset_discipline (.connected .ioError) 3 .elapsed).2.1
     .ioError rfl⟩

/-- Claim C5: for u16 inputs, `AddressRange::try_from(start, count)`
succeeds exactly when `count > 0` and `start + count - 1 ≤ 65535`. -/
theorem addressRange_tryFrom_iff (start count : Nat)
    (hs : start < 65536) (hc : count < 65536) :
    (AddressRange.tryFrom start count).isSome = true ↔
      (0 < count ∧ start + count - 1 ≤ 65535) := by
  unfold AddressRange.tryFrom
  split_ifs with h1 h2 <;> simp <;> omega

/-- Witness for C5 at the upper boundary: `(65535, 1)` is accepted. -/
theorem addressRange_tryFrom_iff_witness :
    (AddressRange.tryFrom 65535 1).isSome = true :=
  (addressRange_tryFrom_iff 65535 1 (by decide) (by decide)).mpr (by decide)
